import Mathlib

/-!
TI_PortORotary: the interrupt handlers of `Code/main.c`

A shallow embedding of the rotary-dial controller for the MSP430: the globals and
memory-mapped registers the program touches form a `State`, and `main`, `Port_1`,
`CCR0_ISR` and `CCR1_ISR` are functions on it.

Conventions of the embedding

* Registers are natural numbers holding the register's bit pattern; `&`, `|`, `^` are the
  bitwise operations on `Nat`, and a register is a memory cell that keeps the value last
  written to it.
* `int` is the 16-bit two's complement integer of the MSP430, the target `main.c` is
  written for: a value from `INT_MIN` to `INT_MAX`, and `++CURR_DIGIT` wraps from `INT_MAX`
  to `INT_MIN`.
* `CURR_PHONE` is a pointer: the state holds its value, `NULL` for the null pointer.  The
  program never gives it storage; it only ever assigns it the null pointer or what `strcat`
  returns, which is the destination it was passed.
* `strcat dest src` returns `dest`.  The bytes it reads and writes lie in memory, which is
  not part of the state: the call changes no register and no global.  Line 157 passes
  `(char)CURR_DIGIT`, a number, where `strcat` expects the address of a string.
* The local `cmd` of `Port_1` points to a string literal; `Port_1_cmd` gives the string.
-/

namespace PortORotary

/-! ## Pin masks (`#define`s of `main.c`) -/

/-- Pin 1.0, the hook switch. -/
def HOOK : Nat := 0x01
/-- Pin 1.1, TXD to the modem. -/
def CELL_UART_TXD : Nat := 0x02
/-- Pin 1.2, RXD from the modem. -/
def CELL_UART_RXD : Nat := 0x04
/-- Pin 1.3, the dial increment switch. -/
def ROTARY : Nat := 0x08
/-- Pin 1.4, the dial rest position switch. -/
def ROTARY_END : Nat := 0x10

/-! ## Constants of the device header

`main.c` includes `<io.h>`, which is not among the repository's sources.  The values below
are the ones the MSP430 device headers give these names. -/

/-- Timer A mode control: stop. -/
def MC_0 : Nat := 0x0000
/-- Timer A mode control: up to CCR0. -/
def MC_1 : Nat := 0x0010
/-- Timer A mode control: both mode bits (bits 4 and 5 of `TACTL`). -/
def MC_3 : Nat := 0x0030
/-- Timer A clear. -/
def TACLR : Nat := 0x0004
/-- Timer A interrupt enable. -/
def TAIE : Nat := 0x0002
/-- Timer A clock source SMCLK. -/
def TASSEL_2 : Nat := 0x0200
/-- Input divider /8. -/
def ID_3 : Nat := 0x00C0
/-- Capture/compare interrupt enable. -/
def CCIE : Nat := 0x0010
/-- Timer B clock source SMCLK. -/
def TBSSEL_2 : Nat := 0x0200
/-- Timer B clear. -/
def TBCLR : Nat := 0x0004
/-- Timer B interrupt enable. -/
def TBIE : Nat := 0x0002
/-- Watchdog password. -/
def WDTPW : Nat := 0x5A00
/-- Watchdog hold. -/
def WDTHOLD : Nat := 0x0080

/-! ## Limits of `int` -/

/-- The largest `int`. -/
def INT_MAX : Int := 32767
/-- The smallest `int`. -/
def INT_MIN : Int := -32768

/-- The `int` an arithmetic result is stored as: reduced modulo 2^16 into
`INT_MIN .. INT_MAX`. -/
def wrapInt (x : Int) : Int := (x - INT_MIN) % (INT_MAX - INT_MIN + 1) + INT_MIN

/-! ## Strings and pointers -/

/-- The null pointer. -/
def NULL : Nat := 0

/-- The bytes of a literal, written as a Lean string. -/
def lit (s : String) : List Nat := s.toList.map Char.toNat

/-- The C string stored in an array of bytes: the bytes before the first NUL. -/
def cstr (bytes : List Nat) : List Nat := bytes.takeWhile (fun b => b != 0)

/-- The pointer `strcat(dest, src)` returns: its destination. -/
def strcat (dest _src : Nat) : Nat := dest

/-- The conversion `(char)x` of an `int`: the low byte. -/
def toChar (x : Int) : Nat := (x % 256).toNat

/-- The complement `~m` of a pin mask, as stored into an 8-bit port register. -/
def bnot8 (m : Nat) : Nat := 0xFF ^^^ m

/-! ## State -/

/-- The globals of `main.c` and the registers it reads or writes. -/
structure State where
  /-- Watchdog control. -/
  WDTCTL : Nat
  /-- DCO control. -/
  DCOCTL : Nat
  /-- Basic clock control 1. -/
  BCSCTL1 : Nat
  /-- Calibration byte for `BCSCTL1` at 1 MHz (information memory, read only). -/
  CALBC1_1MHZ : Nat
  /-- Calibration byte for `DCOCTL` at 1 MHz (information memory, read only). -/
  CALDCO_1MHZ : Nat
  /-- Port 1 output. -/
  P1OUT : Nat
  /-- Port 1 function select. -/
  P1SEL : Nat
  /-- Port 1 direction. -/
  P1DIR : Nat
  /-- Port 1 interrupt enable. -/
  P1IE : Nat
  /-- Port 1 interrupt edge select. -/
  P1IES : Nat
  /-- Port 1 interrupt flags. -/
  P1IFG : Nat
  /-- Timer A control. -/
  TACTL : Nat
  /-- Timer A compare register 0. -/
  TACCR0 : Nat
  /-- Timer A compare control 0. -/
  TACCTL0 : Nat
  /-- Timer B control. -/
  TBCTL : Nat
  /-- Timer B compare register 1. -/
  TBCCR1 : Nat
  /-- Timer B compare control 1. -/
  TBCCTL1 : Nat
  /-- Pulses counted (`int CURR_DIGIT`), a value from `INT_MIN` to `INT_MAX`. -/
  CURR_DIGIT : Int
  /-- The number (`char *CURR_PHONE`): the pointer, `NULL` for the null pointer. -/
  CURR_PHONE : Nat
  /-- Hook flag (`int OFFHOOK`). -/
  OFFHOOK : Int
  deriving DecidableEq

/-- The mode-control bits of a Timer A control word. -/
def modeBits (tactl : Nat) : Nat := tactl &&& MC_3

/-! ## The program -/

/-- Lines 66-72 of `main`: watchdog, clock calibration, port output and function select. -/
def main_clock (s : State) : State :=
  let s := { s with WDTCTL := WDTPW + WDTHOLD }
  let s := { s with DCOCTL := 0x00 }
  let s := { s with BCSCTL1 := s.CALBC1_1MHZ }
  let s := { s with DCOCTL := s.CALDCO_1MHZ }
  let s := { s with P1OUT := 0x00 }
  { s with P1SEL := CELL_UART_TXD + CELL_UART_RXD }

/-- Lines 74-82 of `main`: setup of Timer A and Timer B. -/
def main_timers (s : State) : State :=
  let s := { s with TACCR0 := 62500 - 1 }
  let s := { s with TACCTL0 := CCIE }
  let s := { s with TACTL := TASSEL_2 + ID_3 + MC_0 + TACLR + TAIE }
  let s := { s with TBCCR1 := 62500 - 1 }
  let s := { s with TBCCTL1 := CCIE }
  { s with TBCTL := TBSSEL_2 + ID_3 + MC_0 + TBCLR + TBIE }

/-- Lines 84-90 of `main`: pin directions. -/
def main_pins (s : State) : State :=
  let s := { s with P1DIR := s.P1DIR ^^^ HOOK }
  let s := { s with P1DIR := s.P1DIR ^^^ CELL_UART_RXD }
  let s := { s with P1DIR := s.P1DIR ^^^ ROTARY }
  let s := { s with P1DIR := s.P1DIR ^^^ ROTARY_END }
  { s with P1DIR := s.P1DIR ||| CELL_UART_TXD }

/-- Lines 92-96 of `main`: interrupt enables. -/
def main_enable (s : State) : State :=
  let s := { s with P1IE := s.P1IE ||| HOOK }
  let s := { s with P1IE := s.P1IE ||| CELL_UART_RXD }
  let s := { s with P1IE := s.P1IE ||| ROTARY }
  { s with P1IE := s.P1IE ||| ROTARY_END }

/-- Lines 98-102 of `main`: interrupt edge selection. -/
def main_edges (s : State) : State :=
  let s := { s with P1IES := s.P1IES ^^^ HOOK }
  let s := { s with P1IES := s.P1IES ^^^ CELL_UART_RXD }
  let s := { s with P1IES := s.P1IES ^^^ ROTARY }
  { s with P1IES := s.P1IES ||| ROTARY_END }

/-- Lines 104-108 of `main`: pending flags cleared. -/
def main_flags (s : State) : State :=
  let s := { s with P1IFG := s.P1IFG &&& bnot8 HOOK }
  let s := { s with P1IFG := s.P1IFG &&& bnot8 CELL_UART_RXD }
  let s := { s with P1IFG := s.P1IFG &&& bnot8 ROTARY }
  { s with P1IFG := s.P1IFG &&& bnot8 ROTARY_END }

/-- Register setup of `main`, up to the point where it goes to sleep. -/
def main (s : State) : State :=
  main_flags (main_edges (main_enable (main_pins (main_timers (main_clock s)))))

/-- The port 1 interrupt handler: its effect on the globals and registers.  The `switch` on
`P1IFG` is the chain of tests on its four `case` labels, the last `else` being `default`. -/
def Port_1 (s : State) : State :=
  if s.P1IFG = HOOK then
    if s.P1IES &&& HOOK ≠ 0 then
      let s := { s with OFFHOOK := 1 }
      let s := { s with P1IES := s.P1IES ||| HOOK }
      { s with P1IFG := s.P1IFG &&& bnot8 HOOK }
    else
      let s := { s with CURR_PHONE := NULL }
      let s := { s with CURR_DIGIT := 0 }
      let s := { s with OFFHOOK := 0 }
      let s := { s with TACTL := s.TACTL &&& (MC_0 + TACLR) }
      let s := { s with P1IES := s.P1IES ^^^ HOOK }
      { s with P1IFG := s.P1IFG &&& bnot8 HOOK }
  else if s.P1IFG = CELL_UART_RXD then
    s
  else if s.P1IFG = ROTARY then
    if s.OFFHOOK = 1 then
      let s := { s with CURR_DIGIT := wrapInt (s.CURR_DIGIT + 1) }
      { s with P1IFG := s.P1IFG &&& bnot8 ROTARY }
    else s
  else if s.P1IFG = ROTARY_END then
    if s.OFFHOOK = 1 then
      if s.P1IFG &&& ROTARY_END ≠ 0 then
        let s := { s with TACTL := s.TACTL &&& (MC_1 + TACLR) }
        let s := { s with CURR_PHONE := strcat s.CURR_PHONE (toChar s.CURR_DIGIT) }
        let s := { s with P1IES := s.P1IES ||| ROTARY_END }
        { s with P1IFG := s.P1IFG &&& bnot8 ROTARY_END }
      else
        let s := { s with TACTL := s.TACTL &&& (MC_0 + TACLR) }
        let s := { s with P1IES := s.P1IES ^^^ ROTARY_END }
        { s with P1IFG := s.P1IFG &&& bnot8 ROTARY_END }
    else s
  else
    { s with P1IFG := 0 }

/-- The string the local `cmd` of `Port_1` points to, when its declaration is reached: the
literal of line 127. -/
def Port_1_cmd (s : State) : Option (List Nat) :=
  if s.P1IFG = HOOK then
    if s.P1IES &&& HOOK ≠ 0 then none
    else some (cstr (lit "ATH;\r\x00"))
  else none

/-- The arguments `(destination, source)` of the `strcat` call of line 157, when `Port_1`
reaches it.  The source is the number `(char)CURR_DIGIT` taken as an address. -/
def Port_1_strcat (s : State) : Option (Nat × Nat) :=
  if s.P1IFG = ROTARY_END then
    if s.OFFHOOK = 1 then
      if s.P1IFG &&& ROTARY_END ≠ 0 then some (s.CURR_PHONE, toChar s.CURR_DIGIT)
      else none
    else none
  else none

/-- The Timer A compare interrupt handler: its effect on the globals and registers.  The
`strcat` calls of line 180 change neither; their result goes to the local `cmd`. -/
def CCR0_ISR (s : State) : State :=
  { s with TACTL := s.TACTL &&& (MC_0 + TACLR) }

/-- The destination of the inner `strcat` call of line 180. -/
def CCR0_ISR_dest (s : State) : Nat := s.CURR_PHONE

/-- The Timer B compare interrupt handler. -/
def CCR1_ISR (s : State) : State :=
  { s with TBCTL := s.TBCTL &&& (MC_0 + TBCLR) }

/-! ## Interrupt sequences -/

/-- One handler invocation. -/
inductive Event where
  /-- `Port_1` entered with `P1IFG = ifg`. -/
  | port1 (ifg : Nat)
  /-- Timer A fires: `CCR0_ISR`. -/
  | timerA
  /-- Timer B fires: `CCR1_ISR`. -/
  | timerB
  deriving DecidableEq

/-- The state after the handler for one event has run. -/
def step (s : State) : Event → State
  | .port1 ifg => Port_1 { s with P1IFG := ifg }
  | .timerA => CCR0_ISR s
  | .timerB => CCR1_ISR s

/-- The state after the handlers for a sequence of events have run, in order. -/
def run (s : State) : List Event → State
  | [] => s
  | e :: es => run (step s e) es

/-- The arguments of the `strcat` call of line 157 the handler for one event makes, if
any. -/
def appendCall (s : State) : Event → Option (Nat × Nat)
  | .port1 ifg => Port_1_strcat { s with P1IFG := ifg }
  | .timerA => none
  | .timerB => none

/-- The arguments of the `strcat` calls of line 157 made while the handlers for a sequence
of events run, in order. -/
def appendCalls (s : State) : List Event → List (Nat × Nat)
  | [] => []
  | e :: es => (appendCall s e).toList ++ appendCalls (step s e) es

/-- The destinations of the inner `strcat` call of line 180 at the Timer A fires of a
sequence of events, in order. -/
def fireDests (s : State) : List Event → List Nat
  | [] => []
  | .timerA :: es => CCR0_ISR_dest s :: fireDests (step s .timerA) es
  | e :: es => fireDests (step s e) es

/-- `n` rotary pulses. -/
def pulses (n : Nat) : List Event := List.replicate n (.port1 ROTARY)

/-- The dial is back at rest and the quiescence timer fires. -/
def digitDone : List Event := [.port1 ROTARY_END, .timerA]

/-- Every register and global zero, the number the null pointer. -/
def powerUp : State :=
  { WDTCTL := 0, DCOCTL := 0, BCSCTL1 := 0, CALBC1_1MHZ := 0, CALDCO_1MHZ := 0, P1OUT := 0,
    P1SEL := 0, P1DIR := 0, P1IE := 0, P1IES := 0, P1IFG := 0, TACTL := 0, TACCR0 := 0,
    TACCTL0 := 0, TBCTL := 0, TBCCR1 := 0, TBCCTL1 := 0, CURR_DIGIT := 0, CURR_PHONE := NULL,
    OFFHOOK := 0 }

/-- The state `main` leaves when started from `powerUp`. -/
def idle : State := main powerUp

/-- The state `idle` with the handset lifted. -/
def lifted : State := { idle with OFFHOOK := 1 }

/-- The state `lifted` in the middle of a call: seven pulses counted, the number a pointer
into RAM, Timer A in up mode, the hook edge bit clear and a hook interrupt pending. -/
def hangingUp : State :=
  { lifted with P1IFG := HOOK, P1IES := 0x1C, TACTL := 0x02D2, CURR_DIGIT := 7,
                CURR_PHONE := 0x0200 }

/-- The state `lifted` with a rotary pulse pending, Timer A in up mode and the number a
pointer into RAM. -/
def pulsePending : State :=
  { lifted with P1IFG := ROTARY, TACTL := 0x02D2, CURR_DIGIT := 2, CURR_PHONE := 0x0200 }

/-- The state `idle` with four pulses counted and the number a pointer into RAM. -/
def resting : State :=
  { idle with CURR_DIGIT := 4, CURR_PHONE := 0x0200 }

/-- The state `lifted` with three pulses counted. -/
def counted3 : State := { lifted with CURR_DIGIT := 3 }

/-- The state `lifted` with a rotary pulse pending and the count at `INT_MAX`. -/
def countFull : State := { lifted with P1IFG := ROTARY, CURR_DIGIT := INT_MAX }

/-- The scenario: off-hook, three pulses, digit completion, five pulses, digit completion,
on-hook. -/
def dial35 : List Event :=
  [.port1 HOOK] ++ pulses 3 ++ digitDone ++ pulses 5 ++ digitDone ++ [.port1 HOOK]

/-- The state `lifted` with the rest-edge interrupt pending. -/
def restPending : State := { lifted with P1IFG := ROTARY_END }

/-- The state `pulsePending` with the rotary and the rest-edge flags pending together. -/
def twoFlags : State := { pulsePending with P1IFG := ROTARY ||| ROTARY_END }

/-- The state `restPending` with four pulses counted. -/
def restAfterFour : State := { restPending with CURR_DIGIT := 4 }

/-- Whether the handler for an event, entered in state `s`, runs the on-hook branch of
`Port_1` (lines 125-137): a hook interrupt with the `HOOK` bit of `P1IES` clear. -/
def entersOnHook (s : State) : Event → Bool
  | .port1 ifg => decide (ifg = HOOK) && decide (s.P1IES &&& HOOK = 0)
  | .timerA => false
  | .timerB => false

/-- A hook interrupt, pulses, digit completions and both timers, in a row. -/
def busy : List Event :=
  [.port1 HOOK] ++ pulses 2 ++ digitDone ++ [.timerB, .port1 HOOK, .port1 CELL_UART_RXD]
    ++ pulses 1 ++ [.port1 0x18, .port1 HOOK]

/-- The state `resting` (handset down) with a rotary pulse pending. -/
def ignoredPulse : State := { resting with P1IFG := ROTARY }

/-! ## Lemmas on the handlers -/

/-- A value in the range of `int` is stored as it is. -/
theorem wrapInt_of_range (x : Int) (hlo : INT_MIN ≤ x) (hhi : x ≤ INT_MAX) : wrapInt x = x := by
  unfold wrapInt
  unfold INT_MIN at hlo ⊢
  unfold INT_MAX at hhi ⊢
  have hm : (32767 : Int) - (-32768) + 1 = 65536 := by norm_num
  rw [hm, Int.emod_eq_of_lt (by omega) (by omega)]
  omega

/-- The on-hook branch of `Port_1`. -/
theorem Port_1_onhook (s : State) (hifg : s.P1IFG = HOOK) (hies : s.P1IES &&& HOOK = 0) :
    Port_1 s = { s with CURR_PHONE := NULL, CURR_DIGIT := 0, OFFHOOK := 0,
                        TACTL := s.TACTL &&& (MC_0 + TACLR), P1IES := s.P1IES ^^^ HOOK,
                        P1IFG := 0 } := by
  have h0 : HOOK &&& bnot8 HOOK = 0 := by decide
  simp [Port_1, hifg, hies, h0]

/-- The off-hook branch of `Port_1`. -/
theorem Port_1_offhook (s : State) (hifg : s.P1IFG = HOOK) (hies : s.P1IES &&& HOOK ≠ 0) :
    Port_1 s = { s with OFFHOOK := 1, P1IES := s.P1IES ||| HOOK, P1IFG := 0 } := by
  have h0 : HOOK &&& bnot8 HOOK = 0 := by decide
  simp [Port_1, hifg, hies, h0]

/-- A rotary pulse counted. -/
theorem Port_1_rotary (s : State) (hifg : s.P1IFG = ROTARY) (hoff : s.OFFHOOK = 1) :
    Port_1 s = { s with CURR_DIGIT := wrapInt (s.CURR_DIGIT + 1), P1IFG := 0 } := by
  have h0 : ROTARY &&& bnot8 ROTARY = 0 := by decide
  have h1 : ROTARY ≠ HOOK := by decide
  have h2 : ROTARY ≠ CELL_UART_RXD := by decide
  simp [Port_1, hifg, hoff, h0, h1, h2]

/-- The dial back at rest while off-hook: the append branch.  `CURR_PHONE` is assigned what
`strcat` returns, the pointer it already holds. -/
theorem Port_1_rotaryEnd (s : State) (hifg : s.P1IFG = ROTARY_END) (hoff : s.OFFHOOK = 1) :
    Port_1 s = { s with TACTL := s.TACTL &&& (MC_1 + TACLR),
                        P1IES := s.P1IES ||| ROTARY_END, P1IFG := 0 } := by
  have h0 : ROTARY_END &&& bnot8 ROTARY_END = 0 := by decide
  have h1 : ROTARY_END ≠ HOOK := by decide
  have h2 : ROTARY_END ≠ CELL_UART_RXD := by decide
  have h3 : ROTARY_END ≠ ROTARY := by decide
  have h4 : ROTARY_END ≠ 0 := by decide
  simp [Port_1, hifg, hoff, h0, h1, h2, h3, h4, strcat]

/-- A rotary pulse or rest edge while `OFFHOOK` is not 1 changes nothing. -/
theorem Port_1_ignored (s : State) (hifg : s.P1IFG = ROTARY ∨ s.P1IFG = ROTARY_END)
    (hoff : s.OFFHOOK ≠ 1) : Port_1 s = s := by
  have h1 : ROTARY ≠ HOOK := by decide
  have h2 : ROTARY ≠ CELL_UART_RXD := by decide
  have h3 : ROTARY_END ≠ HOOK := by decide
  have h4 : ROTARY_END ≠ CELL_UART_RXD := by decide
  have h5 : ROTARY_END ≠ ROTARY := by decide
  rcases hifg with hifg | hifg <;> simp [Port_1, hifg, hoff, h1, h2, h3, h4, h5]

/-- The modem receive flag alone: nothing is done. -/
theorem Port_1_rxd (s : State) (hifg : s.P1IFG = CELL_UART_RXD) : Port_1 s = s := by
  have h1 : CELL_UART_RXD ≠ HOOK := by decide
  simp [Port_1, hifg, h1]

/-- No `case` label matches: the `default` branch. -/
theorem Port_1_default (s : State) (h1 : s.P1IFG ≠ HOOK) (h2 : s.P1IFG ≠ CELL_UART_RXD)
    (h3 : s.P1IFG ≠ ROTARY) (h4 : s.P1IFG ≠ ROTARY_END) :
    Port_1 s = { s with P1IFG := 0 } := by
  simp [Port_1, h1, h2, h3, h4]

/-- The six ways through `Port_1`. -/
theorem Port_1_cases (s : State) :
    (s.P1IFG = HOOK ∧ s.P1IES &&& HOOK ≠ 0 ∧
      Port_1 s = { s with OFFHOOK := 1, P1IES := s.P1IES ||| HOOK, P1IFG := 0 }) ∨
    (s.P1IFG = HOOK ∧ s.P1IES &&& HOOK = 0 ∧
      Port_1 s = { s with CURR_PHONE := NULL, CURR_DIGIT := 0, OFFHOOK := 0,
                          TACTL := s.TACTL &&& (MC_0 + TACLR), P1IES := s.P1IES ^^^ HOOK,
                          P1IFG := 0 }) ∨
    (s.P1IFG = ROTARY ∧ s.OFFHOOK = 1 ∧
      Port_1 s = { s with CURR_DIGIT := wrapInt (s.CURR_DIGIT + 1), P1IFG := 0 }) ∨
    (s.P1IFG = ROTARY_END ∧ s.OFFHOOK = 1 ∧
      Port_1 s = { s with TACTL := s.TACTL &&& (MC_1 + TACLR),
                          P1IES := s.P1IES ||| ROTARY_END, P1IFG := 0 }) ∨
    ((s.P1IFG = CELL_UART_RXD ∨ (s.P1IFG = ROTARY ∨ s.P1IFG = ROTARY_END) ∧ s.OFFHOOK ≠ 1) ∧
      Port_1 s = s) ∨
    (s.P1IFG ≠ HOOK ∧ s.P1IFG ≠ CELL_UART_RXD ∧ s.P1IFG ≠ ROTARY ∧ s.P1IFG ≠ ROTARY_END ∧
      Port_1 s = { s with P1IFG := 0 }) := by
  by_cases h1 : s.P1IFG = HOOK
  · by_cases hb : s.P1IES &&& HOOK = 0
    · exact Or.inr (Or.inl ⟨h1, hb, Port_1_onhook s h1 hb⟩)
    · exact Or.inl ⟨h1, hb, Port_1_offhook s h1 hb⟩
  · by_cases h2 : s.P1IFG = CELL_UART_RXD
    · exact Or.inr (Or.inr (Or.inr (Or.inr (Or.inl ⟨Or.inl h2, Port_1_rxd s h2⟩))))
    · by_cases h3 : s.P1IFG = ROTARY
      · by_cases ho : s.OFFHOOK = 1
        · exact Or.inr (Or.inr (Or.inl ⟨h3, ho, Port_1_rotary s h3 ho⟩))
        · exact Or.inr (Or.inr (Or.inr (Or.inr (Or.inl
            ⟨Or.inr ⟨Or.inl h3, ho⟩, Port_1_ignored s (Or.inl h3) ho⟩))))
      · by_cases h4 : s.P1IFG = ROTARY_END
        · by_cases ho : s.OFFHOOK = 1
          · exact Or.inr (Or.inr (Or.inr (Or.inl ⟨h4, ho, Port_1_rotaryEnd s h4 ho⟩)))
          · exact Or.inr (Or.inr (Or.inr (Or.inr (Or.inl
              ⟨Or.inr ⟨Or.inr h4, ho⟩, Port_1_ignored s (Or.inr h4) ho⟩))))
        · exact Or.inr (Or.inr (Or.inr (Or.inr (Or.inr
            ⟨h1, h2, h3, h4, Port_1_default s h1 h2 h3 h4⟩))))

/-- A control word masked with `MC_0 + TACLR` has no mode bit set. -/
theorem modeBits_stop (t : Nat) : modeBits (t &&& (MC_0 + TACLR)) = 0 := by
  have h : (MC_0 + TACLR) &&& MC_3 = 0 := by decide
  rw [modeBits, Nat.and_assoc, h, Nat.and_zero]

/-- Running a concatenation of event sequences. -/
theorem run_append (s : State) (es fs : List Event) : run s (es ++ fs) = run (run s es) fs := by
  induction es generalizing s with
  | nil => rfl
  | cons e es ih => simp [run, ih]

/-- One rotary pulse handled while off-hook. -/
theorem step_rotary (s : State) (hoff : s.OFFHOOK = 1) :
    step s (.port1 ROTARY)
      = { s with CURR_DIGIT := wrapInt (s.CURR_DIGIT + 1), P1IFG := 0 } := by
  have h := Port_1_rotary { s with P1IFG := ROTARY } rfl hoff
  simpa [step] using h

/-- The rest edge handled while off-hook. -/
theorem step_rotaryEnd (s : State) (hoff : s.OFFHOOK = 1) :
    step s (.port1 ROTARY_END) =
      { s with TACTL := s.TACTL &&& (MC_1 + TACLR), P1IES := s.P1IES ||| ROTARY_END,
               P1IFG := 0 } := by
  have h := Port_1_rotaryEnd { s with P1IFG := ROTARY_END } rfl hoff
  simpa [step] using h

/-- Pulses counted while off-hook without overflow: only the count and the pending flags
change. -/
theorem run_pulses (k : Nat) (s : State) (hoff : s.OFFHOOK = 1) (hlo : INT_MIN ≤ s.CURR_DIGIT)
    (hhi : s.CURR_DIGIT + (k + 1 : Nat) ≤ INT_MAX) :
    run s (pulses (k + 1)) = { s with CURR_DIGIT := s.CURR_DIGIT + (k + 1 : Nat), P1IFG := 0 } := by
  induction k generalizing s with
  | zero =>
    have hw : wrapInt (s.CURR_DIGIT + 1) = s.CURR_DIGIT + 1 :=
      wrapInt_of_range _ (by omega) (by simpa using hhi)
    simp [pulses, run, step_rotary s hoff, hw]
  | succ k ih =>
    have hw : wrapInt (s.CURR_DIGIT + 1) = s.CURR_DIGIT + 1 :=
      wrapInt_of_range _ (by omega) (by push_cast at hhi; omega)
    have hs : run s (pulses (k + 1 + 1)) = run (step s (.port1 ROTARY)) (pulses (k + 1)) := rfl
    rw [hs, step_rotary s hoff, hw, ih]
    · simp
      omega
    · exact hoff
    · show INT_MIN ≤ s.CURR_DIGIT + 1
      omega
    · show s.CURR_DIGIT + 1 + ((k + 1 : Nat) : Int) ≤ INT_MAX
      push_cast at hhi ⊢
      omega

/-- The count after `k` pulses handled while off-hook without overflow. -/
theorem run_pulses_count (k : Nat) (s : State) (hoff : s.OFFHOOK = 1)
    (hlo : INT_MIN ≤ s.CURR_DIGIT) (hhi : s.CURR_DIGIT + k ≤ INT_MAX) :
    (run s (pulses k)).CURR_DIGIT = s.CURR_DIGIT + k := by
  cases k with
  | zero => simp [pulses, run]
  | succ k => rw [run_pulses k s hoff hlo hhi]

/-- The low byte of a small count is the count. -/
theorem toChar_small (n : Nat) (h : n < 256) : toChar (n : Int) = n := by
  unfold toChar
  omega

/-- Setting further bits keeps the hook edge bit set. -/
theorem hook_bit_or (x m : Nat) (h : x &&& HOOK ≠ 0) : (x ||| m) &&& HOOK ≠ 0 := by
  have hx : x % 2 = 1 := by
    have h1 : x &&& 1 ≠ 0 := h
    rw [Nat.and_one_is_mod] at h1
    omega
  have h2 : (x ||| m) % 2 = 1 := Nat.or_mod_two_eq_one.mpr (Or.inl hx)
  show (x ||| m) &&& 1 ≠ 0
  rw [Nat.and_one_is_mod, h2]
  decide

/-- With the hook edge bit set, `Port_1` keeps it set, sets `OFFHOOK` to 1 or leaves it, and
either leaves the pulse count or increments it. -/
theorem Port_1_keeps (s : State) (hset : s.P1IES &&& HOOK ≠ 0) :
    (Port_1 s).P1IES &&& HOOK ≠ 0 ∧
    ((Port_1 s).OFFHOOK = 1 ∨ (Port_1 s).OFFHOOK = s.OFFHOOK) ∧
    ((Port_1 s).CURR_DIGIT = s.CURR_DIGIT ∨
      (Port_1 s).CURR_DIGIT = wrapInt (s.CURR_DIGIT + 1)) := by
  rcases Port_1_cases s with ⟨_, _, h⟩ | ⟨_, hb, _⟩ | ⟨_, _, h⟩ | ⟨_, _, h⟩ | ⟨_, h⟩ |
    ⟨_, _, _, _, h⟩
  · rw [h]
    exact ⟨hook_bit_or _ _ hset, Or.inl rfl, Or.inl rfl⟩
  · exact absurd hb hset
  · rw [h]
    exact ⟨hset, Or.inr rfl, Or.inr rfl⟩
  · rw [h]
    exact ⟨hook_bit_or _ _ hset, Or.inr rfl, Or.inl rfl⟩
  · rw [h]
    exact ⟨hset, Or.inr rfl, Or.inl rfl⟩
  · rw [h]
    exact ⟨hset, Or.inr rfl, Or.inl rfl⟩

/-- The same for the handler of any event. -/
theorem step_keeps (s : State) (e : Event) (hset : s.P1IES &&& HOOK ≠ 0) :
    (step s e).P1IES &&& HOOK ≠ 0 ∧
    ((step s e).OFFHOOK = 1 ∨ (step s e).OFFHOOK = s.OFFHOOK) ∧
    ((step s e).CURR_DIGIT = s.CURR_DIGIT ∨
      (step s e).CURR_DIGIT = wrapInt (s.CURR_DIGIT + 1)) := by
  cases e with
  | port1 ifg => exact Port_1_keeps { s with P1IFG := ifg } hset
  | timerA => exact ⟨hset, Or.inr rfl, Or.inl rfl⟩
  | timerB => exact ⟨hset, Or.inr rfl, Or.inl rfl⟩

/-- Over a sequence of events the hook edge bit stays set and `OFFHOOK`, once 1, stays 1. -/
theorem run_keeps (s : State) (es : List Event) (hset : s.P1IES &&& HOOK ≠ 0) :
    (run s es).P1IES &&& HOOK ≠ 0 ∧ (s.OFFHOOK = 1 → (run s es).OFFHOOK = 1) := by
  induction es generalizing s with
  | nil => exact ⟨hset, fun h => h⟩
  | cons e es ih =>
    obtain ⟨h1, h2, _⟩ := step_keeps s e hset
    obtain ⟨k1, k2⟩ := ih (step s e) h1
    refine ⟨k1, fun ho => k2 ?_⟩
    rcases h2 with h2 | h2
    · exact h2
    · rw [h2]
      exact ho

/-- Every handler leaves in `TACTL` the old value masked. -/
theorem step_TACTL (s : State) (e : Event) : ∃ m, (step s e).TACTL = s.TACTL &&& m := by
  have hsame : ∃ m, s.TACTL = s.TACTL &&& m := ⟨s.TACTL, (Nat.and_self _).symm⟩
  cases e with
  | port1 ifg =>
    rcases Port_1_cases { s with P1IFG := ifg } with ⟨_, _, h⟩ | ⟨_, _, h⟩ | ⟨_, _, h⟩ |
      ⟨_, _, h⟩ | ⟨_, h⟩ | ⟨_, _, _, _, h⟩
    · simp only [step]; rw [h]; exact hsame
    · simp only [step]; rw [h]; exact ⟨MC_0 + TACLR, rfl⟩
    · simp only [step]; rw [h]; exact hsame
    · simp only [step]; rw [h]; exact ⟨MC_1 + TACLR, rfl⟩
    · simp only [step]; rw [h]; exact hsame
    · simp only [step]; rw [h]; exact hsame
  | timerA => exact ⟨MC_0 + TACLR, rfl⟩
  | timerB => exact hsame

/-- Every sequence of handlers leaves in `TACTL` the old value masked. -/
theorem run_TACTL (s : State) (es : List Event) : ∃ m, (run s es).TACTL = s.TACTL &&& m := by
  induction es generalizing s with
  | nil => exact ⟨s.TACTL, (Nat.and_self _).symm⟩
  | cons e es ih =>
    obtain ⟨m1, h1⟩ := step_TACTL s e
    obtain ⟨m2, h2⟩ := ih (step s e)
    refine ⟨m1 &&& m2, ?_⟩
    show (run (step s e) es).TACTL = _
    rw [h2, h1, Nat.and_assoc]

/-- A masked value is a bitwise subset of the value. -/
theorem and_mask_subset (t m : Nat) : (t &&& m) &&& t = t &&& m := by
  rw [Nat.and_comm (t &&& m) t, ← Nat.and_assoc, Nat.and_self]

/-- Masking keeps the mode bits clear. -/
theorem modeBits_mask (t m : Nat) (h : modeBits t = 0) : modeBits (t &&& m) = 0 := by
  unfold modeBits at h ⊢
  rw [Nat.and_assoc, Nat.and_comm m MC_3, ← Nat.and_assoc, h, Nat.zero_and]

/-- Every handler leaves the pointer `CURR_PHONE` as it is or makes it null. -/
theorem step_CURR_PHONE (s : State) (e : Event) :
    (step s e).CURR_PHONE = s.CURR_PHONE ∨ (step s e).CURR_PHONE = NULL := by
  cases e with
  | port1 ifg =>
    rcases Port_1_cases { s with P1IFG := ifg } with ⟨_, _, h⟩ | ⟨_, _, h⟩ | ⟨_, _, h⟩ |
      ⟨_, _, h⟩ | ⟨_, h⟩ | ⟨_, _, _, _, h⟩
    · simp only [step]; rw [h]; exact Or.inl rfl
    · simp only [step]; rw [h]; exact Or.inr rfl
    · simp only [step]; rw [h]; exact Or.inl rfl
    · simp only [step]; rw [h]; exact Or.inl rfl
    · simp only [step]; rw [h]; exact Or.inl rfl
    · simp only [step]; rw [h]; exact Or.inl rfl
  | timerA => exact Or.inl rfl
  | timerB => exact Or.inl rfl

/-- A null `CURR_PHONE` stays null over every sequence of events. -/
theorem run_null (s : State) (es : List Event) (hnull : s.CURR_PHONE = NULL) :
    (run s es).CURR_PHONE = NULL := by
  induction es generalizing s with
  | nil => exact hnull
  | cons e es ih =>
    refine ih (step s e) ?_
    rcases step_CURR_PHONE s e with h | h
    · rw [h]
      exact hnull
    · exact h

/-! ## Hook handling -/

/-- C3: for every prior state, when `Port_1` handles a hook event with the `HOOK` bit of
`P1IES` clear (the on-hook branch), the pulse count is 0, the number is the null pointer
and `OFFHOOK` is 0 afterwards. -/
theorem onhook_clears_session (s : State) (hifg : s.P1IFG = HOOK)
    (hies : s.P1IES &&& HOOK = 0) :
    (Port_1 s).CURR_DIGIT = 0 ∧ (Port_1 s).CURR_PHONE = NULL ∧ (Port_1 s).OFFHOOK = 0 := by
  rw [Port_1_onhook s hifg hies]
  exact ⟨rfl, rfl, rfl⟩

/-- Witness for C3: a call in progress (seven pulses, a non-null number, off-hook) is
cleared. -/
theorem onhook_clears_session_witness :
    hangingUp.CURR_DIGIT = 7 ∧ hangingUp.CURR_PHONE = 0x0200 ∧ hangingUp.OFFHOOK = 1 ∧
    (Port_1 hangingUp).CURR_DIGIT = 0 ∧ (Port_1 hangingUp).CURR_PHONE = NULL ∧
    (Port_1 hangingUp).OFFHOOK = 0 :=
  ⟨by decide, by decide, by decide,
    onhook_clears_session hangingUp (by decide) (by decide)⟩

/-- C10: for every prior value of `TACTL`, after the on-hook branch of `Port_1` the
mode-control bits of `TACTL` are `MC_0` (timer stopped), and so they are after
`CCR0_ISR`. -/
theorem onhook_and_timer_stop_timerA (s t : State) (hifg : s.P1IFG = HOOK)
    (hies : s.P1IES &&& HOOK = 0) :
    modeBits (Port_1 s).TACTL = MC_0 ∧ modeBits (CCR0_ISR t).TACTL = MC_0 := by
  rw [Port_1_onhook s hifg hies]
  exact ⟨modeBits_stop s.TACTL, modeBits_stop t.TACTL⟩

/-- Witness for C10: Timer A in up mode before, stopped after. -/
theorem onhook_and_timer_stop_timerA_witness :
    modeBits hangingUp.TACTL = MC_1 ∧ modeBits pulsePending.TACTL = MC_1 ∧
    modeBits (Port_1 hangingUp).TACTL = MC_0 ∧ modeBits (CCR0_ISR pulsePending).TACTL = MC_0 :=
  ⟨by decide, by decide,
    onhook_and_timer_stop_timerA hangingUp pulsePending (by decide) (by decide)⟩

/-- C4, evaluated on the code: after a hook interrupt handled as off-hook, the next hook
interrupt takes the off-hook branch again, so `OFFHOOK` stays 1 and neither the pulse count
nor the number is cleared. -/
theorem second_hook_event_is_offhook_again (s : State) (hifg : s.P1IFG = HOOK)
    (hies : s.P1IES &&& HOOK ≠ 0) :
    (Port_1 s).OFFHOOK = 1 ∧
    (Port_1 s).P1IES &&& HOOK ≠ 0 ∧
    (step (Port_1 s) (.port1 HOOK)).OFFHOOK = 1 ∧
    (step (Port_1 s) (.port1 HOOK)).CURR_DIGIT = s.CURR_DIGIT ∧
    (step (Port_1 s) (.port1 HOOK)).CURR_PHONE = s.CURR_PHONE := by
  have hbit : (s.P1IES ||| HOOK) &&& HOOK ≠ 0 := by
    have h1 : (s.P1IES ||| 1) % 2 = 1 := Nat.or_mod_two_eq_one.mpr (Or.inr rfl)
    show (s.P1IES ||| 1) &&& 1 ≠ 0
    rw [Nat.and_one_is_mod, h1]
    decide
  have h2 := Port_1_offhook { Port_1 s with P1IFG := HOOK } rfl
    (by rw [Port_1_offhook s hifg hies]; exact hbit)
  refine ⟨?_, ?_, ?_, ?_, ?_⟩
  · rw [Port_1_offhook s hifg hies]
  · rw [Port_1_offhook s hifg hies]; exact hbit
  · simp only [step]; rw [h2]
  · simp only [step]; rw [h2, Port_1_offhook s hifg hies]
  · simp only [step]; rw [h2, Port_1_offhook s hifg hies]

/-- Witness for C4: with two pulses counted and a non-null number, the second hook event
leaves the call as it was. -/
theorem second_hook_event_is_offhook_again_witness :
    (Port_1 { pulsePending with P1IFG := HOOK }).OFFHOOK = 1 ∧
    (Port_1 { pulsePending with P1IFG := HOOK }).P1IES &&& HOOK ≠ 0 ∧
    (step (Port_1 { pulsePending with P1IFG := HOOK }) (.port1 HOOK)).OFFHOOK = 1 ∧
    (step (Port_1 { pulsePending with P1IFG := HOOK }) (.port1 HOOK)).CURR_DIGIT = 2 ∧
    (step (Port_1 { pulsePending with P1IFG := HOOK }) (.port1 HOOK)).CURR_PHONE = 0x0200 :=
  second_hook_event_is_offhook_again { pulsePending with P1IFG := HOOK } (by decide) (by decide)

/-! ## Pulses ignored on-hook -/

/-- C8, evaluated on the code: with the Timer A configuration written by `main` and
`OFFHOOK = 1`, after `Port_1` has handled the rest edge `TACTL` is `TACLR` alone and its
mode-control bits are `MC_0`, not `MC_1`. -/
theorem rest_edge_leaves_timerA_stopped (s : State)
    (ht : s.TACTL = TASSEL_2 + ID_3 + MC_0 + TACLR + TAIE) (hoff : s.OFFHOOK = 1)
    (hifg : s.P1IFG = ROTARY_END) :
    (Port_1 s).TACTL = TACLR ∧ modeBits (Port_1 s).TACTL = MC_0 ∧
    modeBits (Port_1 s).TACTL ≠ MC_1 := by
  have h : (Port_1 s).TACTL = TACLR := by
    rw [Port_1_rotaryEnd s hifg hoff]
    show s.TACTL &&& (MC_1 + TACLR) = TACLR
    rw [ht]
    decide
  rw [h]
  decide

/-- Witness for C8: the state `main` leaves, off-hook, with the rest edge pending. -/
theorem rest_edge_leaves_timerA_stopped_witness :
    restPending.TACTL = (main powerUp).TACTL ∧
    (Port_1 restPending).TACTL = TACLR ∧ modeBits (Port_1 restPending).TACTL = MC_0 ∧
    modeBits (Port_1 restPending).TACTL ≠ MC_1 :=
  ⟨by decide, rest_edge_leaves_timerA_stopped restPending (by decide) (by decide) (by decide)⟩

/-- C9, as the code has it: for every state with `OFFHOOK = 1`, handling a `ROTARY`
interrupt leaves `TACTL` exactly as it was, so Timer A is in up mode after the pulse only if
it was before. -/
theorem rotary_pulse_keeps_TACTL (s : State) (hoff : s.OFFHOOK = 1)
    (hifg : s.P1IFG = ROTARY) :
    (Port_1 s).TACTL = s.TACTL ∧
    (modeBits (Port_1 s).TACTL = MC_1 ↔ modeBits s.TACTL = MC_1) := by
  have h : (Port_1 s).TACTL = s.TACTL := by rw [Port_1_rotary s hifg hoff]
  rw [h]
  exact ⟨rfl, Iff.rfl⟩

/-- Witness for C9: a pulse handled with Timer A in up mode. -/
theorem rotary_pulse_keeps_TACTL_witness :
    (Port_1 pulsePending).TACTL = pulsePending.TACTL ∧
    (modeBits (Port_1 pulsePending).TACTL = MC_1 ↔ modeBits pulsePending.TACTL = MC_1) :=
  rotary_pulse_keeps_TACTL pulsePending (by decide) (by decide)

/-- C9 refuted as stated: off-hook with Timer A stopped as `main` left it, a `ROTARY`
interrupt leaves the mode-control bits at `MC_0`; the timer is not running afterwards. -/
theorem rotary_pulse_does_not_start_timerA :
    lifted.OFFHOOK = 1 ∧ modeBits (step lifted (.port1 ROTARY)).TACTL = MC_0 ∧
    modeBits (step lifted (.port1 ROTARY)).TACTL ≠ MC_1 := by
  decide

/-! ## Dispatch on the pending flags -/

/-- C12: for every value of `P1IFG` that is not exactly `HOOK`, `CELL_UART_RXD`, `ROTARY` or
`ROTARY_END` (any combination of flags included), `Port_1` sets `P1IFG` to 0 and leaves
`OFFHOOK`, `CURR_DIGIT`, the number, `P1IES` and `TACTL` unchanged; nothing else changes
either. -/
theorem unrecognised_flags_are_cleared (s : State) (h1 : s.P1IFG ≠ HOOK)
    (h2 : s.P1IFG ≠ CELL_UART_RXD) (h3 : s.P1IFG ≠ ROTARY) (h4 : s.P1IFG ≠ ROTARY_END) :
    (Port_1 s).P1IFG = 0 ∧ (Port_1 s).OFFHOOK = s.OFFHOOK ∧
    (Port_1 s).CURR_DIGIT = s.CURR_DIGIT ∧ (Port_1 s).CURR_PHONE = s.CURR_PHONE ∧
    (Port_1 s).P1IES = s.P1IES ∧ (Port_1 s).TACTL = s.TACTL ∧
    Port_1 s = { s with P1IFG := 0 } := by
  rw [Port_1_default s h1 h2 h3 h4]
  exact ⟨rfl, rfl, rfl, rfl, rfl, rfl, rfl⟩

/-- Witness for C12: the rotary and rest-edge flags pending together (`P1IFG = 0x18`). -/
theorem unrecognised_flags_are_cleared_witness :
    twoFlags.P1IFG = 0x18 ∧
    ((Port_1 twoFlags).P1IFG = 0 ∧ (Port_1 twoFlags).OFFHOOK = twoFlags.OFFHOOK ∧
      (Port_1 twoFlags).CURR_DIGIT = twoFlags.CURR_DIGIT ∧
      (Port_1 twoFlags).CURR_PHONE = twoFlags.CURR_PHONE ∧
      (Port_1 twoFlags).P1IES = twoFlags.P1IES ∧ (Port_1 twoFlags).TACTL = twoFlags.TACTL ∧
      Port_1 twoFlags = { twoFlags with P1IFG := 0 }) :=
  ⟨by decide,
    unrecognised_flags_are_cleared twoFlags (by decide) (by decide) (by decide) (by decide)⟩

/-! ## Setup by `main` -/

/-- C14, evaluated on the code: from the reset value `P1DIR = 0` the pin setup of `main`
leaves `P1DIR = 0x1F`: the `HOOK`, `CELL_UART_RXD`, `ROTARY` and `ROTARY_END` bits are 1
(outputs), not 0, because `^=` toggles them; the `CELL_UART_TXD` bit is 1 for every initial
value. -/
theorem main_toggles_input_pins (s t : State) (hreset : s.P1DIR = 0) :
    (main s).P1DIR = 0x1F ∧
    (main s).P1DIR &&& HOOK = HOOK ∧ (main s).P1DIR &&& CELL_UART_RXD = CELL_UART_RXD ∧
    (main s).P1DIR &&& ROTARY = ROTARY ∧ (main s).P1DIR &&& ROTARY_END = ROTARY_END ∧
    (main t).P1DIR &&& CELL_UART_TXD = CELL_UART_TXD := by
  have hs : (main s).P1DIR
      = ((((s.P1DIR ^^^ HOOK) ^^^ CELL_UART_RXD) ^^^ ROTARY) ^^^ ROTARY_END)
        ||| CELL_UART_TXD := rfl
  have ht : (main t).P1DIR
      = ((((t.P1DIR ^^^ HOOK) ^^^ CELL_UART_RXD) ^^^ ROTARY) ^^^ ROTARY_END)
        ||| CELL_UART_TXD := rfl
  have h1F : (main s).P1DIR = 0x1F := by
    rw [hs, hreset]
    decide
  refine ⟨h1F, ?_, ?_, ?_, ?_, ?_⟩
  · rw [h1F]; decide
  · rw [h1F]; decide
  · rw [h1F]; decide
  · rw [h1F]; decide
  · rw [ht]
    apply Nat.eq_of_testBit_eq
    intro i
    rw [Nat.testBit_and, Nat.testBit_or]
    cases Nat.testBit CELL_UART_TXD i <;> simp

/-- Witness for C14: `main` run from cleared registers. -/
theorem main_toggles_input_pins_witness :
    (main powerUp).P1DIR = 0x1F ∧
    (main powerUp).P1DIR &&& HOOK = HOOK ∧
    (main powerUp).P1DIR &&& CELL_UART_RXD = CELL_UART_RXD ∧
    (main powerUp).P1DIR &&& ROTARY = ROTARY ∧
    (main powerUp).P1DIR &&& ROTARY_END = ROTARY_END ∧
    (main hangingUp).P1DIR &&& CELL_UART_TXD = CELL_UART_TXD :=
  main_toggles_input_pins powerUp hangingUp (by decide)

/-! ## Invariants of the handlers -/

/-- C16: for every state and every handler invocation (`Port_1` in any state, `CCR0_ISR`,
`CCR1_ISR`) the new `TACTL` is a bitwise subset of the old one; so from the configuration
written by `main`, whose mode bits are `MC_0`, the mode-control bits of `TACTL` are 0 after
every sequence of handler invocations. -/
theorem handlers_only_clear_TACTL_bits (s s0 : State) (e : Event) (es : List Event) :
    (Port_1 s).TACTL &&& s.TACTL = (Port_1 s).TACTL ∧
    (CCR0_ISR s).TACTL &&& s.TACTL = (CCR0_ISR s).TACTL ∧
    (CCR1_ISR s).TACTL &&& s.TACTL = (CCR1_ISR s).TACTL ∧
    (step s e).TACTL &&& s.TACTL = (step s e).TACTL ∧
    (main s0).TACTL = TASSEL_2 + ID_3 + MC_0 + TACLR + TAIE ∧
    modeBits (main s0).TACTL = MC_0 ∧
    modeBits (run (main s0) es).TACTL = MC_0 := by
  have hsub : ∀ ev : Event, (step s ev).TACTL &&& s.TACTL = (step s ev).TACTL := by
    intro ev
    obtain ⟨m, hm⟩ := step_TACTL s ev
    rw [hm]
    exact and_mask_subset s.TACTL m
  have hcfg : (main s0).TACTL = TASSEL_2 + ID_3 + MC_0 + TACLR + TAIE := rfl
  have hmain : modeBits (main s0).TACTL = 0 := by
    rw [hcfg]
    decide
  refine ⟨hsub (.port1 s.P1IFG), hsub .timerA, hsub .timerB, hsub e, rfl, hmain, ?_⟩
  obtain ⟨m, hm⟩ := run_TACTL (main s0) es
  rw [hm]
  exact modeBits_mask _ m hmain


/-- C15: once the `HOOK` bit of `P1IES` is set no handler clears it (`Port_1` in any state,
`CCR0_ISR`, `CCR1_ISR`), and `main` leaves it set when `P1IES` starts at 0.  So from a state
where it is set, over every sequence of handler invocations, no handler is entered on the
on-hook branch, `OFFHOOK` once 1 stays 1, and `CURR_DIGIT` is never reset: each invocation
leaves it as it is or is the `++CURR_DIGIT` of line 145. -/
theorem hook_edge_bit_is_sticky (s : State) (es : List Event)
    (hset : s.P1IES &&& HOOK ≠ 0) :
    (Port_1 s).P1IES &&& HOOK ≠ 0 ∧ (CCR0_ISR s).P1IES &&& HOOK ≠ 0 ∧
    (CCR1_ISR s).P1IES &&& HOOK ≠ 0 ∧
    (∀ s0 : State, s0.P1IES = 0 → (main s0).P1IES &&& HOOK ≠ 0) ∧
    (run s es).P1IES &&& HOOK ≠ 0 ∧
    (∀ es1 e es2, es = es1 ++ e :: es2 → entersOnHook (run s es1) e = false) ∧
    (∀ es1 es2, es = es1 ++ es2 → (run s es1).OFFHOOK = 1 → (run s es).OFFHOOK = 1) ∧
    (∀ es1 e es2, es = es1 ++ e :: es2 →
      (step (run s es1) e).CURR_DIGIT = (run s es1).CURR_DIGIT ∨
      (step (run s es1) e).CURR_DIGIT = wrapInt ((run s es1).CURR_DIGIT + 1)) := by
  refine ⟨(Port_1_keeps s hset).1, (step_keeps s .timerA hset).1,
    (step_keeps s .timerB hset).1, ?_, (run_keeps s es hset).1, ?_, ?_, ?_⟩
  · intro s0 h0
    have hm : (main s0).P1IES
        = (((s0.P1IES ^^^ HOOK) ^^^ CELL_UART_RXD) ^^^ ROTARY) ||| ROTARY_END := rfl
    rw [hm, h0]
    decide
  · intro es1 e es2 _
    have hbit := (run_keeps s es1 hset).1
    cases e with
    | port1 ifg => simp [entersOnHook, hbit]
    | timerA => rfl
    | timerB => rfl
  · intro es1 es2 hes ho
    rw [hes, run_append]
    exact (run_keeps (run s es1) es2 (run_keeps s es1 hset).1).2 ho
  · intro es1 e es2 _
    exact (step_keeps (run s es1) e (run_keeps s es1 hset).1).2.2

/-- Witness for C15: the state `main` leaves, through hook interrupts, pulses, digit
completions, both timers and unrecognised flags. -/
theorem hook_edge_bit_is_sticky_witness :
    (Port_1 idle).P1IES &&& HOOK ≠ 0 ∧ (CCR0_ISR idle).P1IES &&& HOOK ≠ 0 ∧
    (CCR1_ISR idle).P1IES &&& HOOK ≠ 0 ∧
    (∀ s0 : State, s0.P1IES = 0 → (main s0).P1IES &&& HOOK ≠ 0) ∧
    (run idle busy).P1IES &&& HOOK ≠ 0 ∧
    (∀ es1 e es2, busy = es1 ++ e :: es2 → entersOnHook (run idle es1) e = false) ∧
    (∀ es1 es2, busy = es1 ++ es2 → (run idle es1).OFFHOOK = 1 →
      (run idle busy).OFFHOOK = 1) ∧
    (∀ es1 e es2, busy = es1 ++ e :: es2 →
      (step (run idle es1) e).CURR_DIGIT = (run idle es1).CURR_DIGIT ∨
      (step (run idle es1) e).CURR_DIGIT = wrapInt ((run idle es1).CURR_DIGIT + 1)) :=
  hook_edge_bit_is_sticky idle busy (by decide)

/-- C17: for every state, `P1IFG` after `Port_1` is non-zero if and only if on entry
`P1IFG = CELL_UART_RXD`, or `P1IFG` is `ROTARY` or `ROTARY_END` with `OFFHOOK != 1`; in those
cases `Port_1` is the identity on the whole state; and whenever `Port_1` is entered with a
flag pending and is the identity, it is one of those cases. -/
theorem pending_flag_left_iff_ignored (s : State) :
    ((Port_1 s).P1IFG ≠ 0 ↔
      (s.P1IFG = CELL_UART_RXD ∨ (s.P1IFG = ROTARY ∨ s.P1IFG = ROTARY_END) ∧ s.OFFHOOK ≠ 1)) ∧
    ((s.P1IFG = CELL_UART_RXD ∨ (s.P1IFG = ROTARY ∨ s.P1IFG = ROTARY_END) ∧ s.OFFHOOK ≠ 1) →
      Port_1 s = s) ∧
    (s.P1IFG ≠ 0 → Port_1 s = s →
      (s.P1IFG = CELL_UART_RXD ∨ (s.P1IFG = ROTARY ∨ s.P1IFG = ROTARY_END) ∧ s.OFFHOOK ≠ 1)) := by
  have hback : (Port_1 s).P1IFG = 0 → s.P1IFG ≠ 0 → Port_1 s ≠ s := by
    intro h0 hn hid
    rw [hid] at h0
    exact hn h0
  rcases Port_1_cases s with ⟨hf, _, h⟩ | ⟨hf, _, h⟩ | ⟨hf, ho, h⟩ | ⟨hf, ho, h⟩ | ⟨hig, h⟩ |
    ⟨h1, h2, h3, h4, h⟩
  · have h0 : (Port_1 s).P1IFG = 0 := by rw [h]
    have hni : ¬ (s.P1IFG = CELL_UART_RXD ∨
        (s.P1IFG = ROTARY ∨ s.P1IFG = ROTARY_END) ∧ s.OFFHOOK ≠ 1) := by
      rw [hf]
      rintro (hr | ⟨hr | hr, _⟩)
      · exact absurd hr (by decide)
      · exact absurd hr (by decide)
      · exact absurd hr (by decide)
    exact ⟨⟨fun hp => absurd h0 hp, fun hi => absurd hi hni⟩, fun hi => absurd hi hni,
      fun hn hid => absurd hid (hback h0 hn)⟩
  · have h0 : (Port_1 s).P1IFG = 0 := by rw [h]
    have hni : ¬ (s.P1IFG = CELL_UART_RXD ∨
        (s.P1IFG = ROTARY ∨ s.P1IFG = ROTARY_END) ∧ s.OFFHOOK ≠ 1) := by
      rw [hf]
      rintro (hr | ⟨hr | hr, _⟩)
      · exact absurd hr (by decide)
      · exact absurd hr (by decide)
      · exact absurd hr (by decide)
    exact ⟨⟨fun hp => absurd h0 hp, fun hi => absurd hi hni⟩, fun hi => absurd hi hni,
      fun hn hid => absurd hid (hback h0 hn)⟩
  · have h0 : (Port_1 s).P1IFG = 0 := by rw [h]
    have hni : ¬ (s.P1IFG = CELL_UART_RXD ∨
        (s.P1IFG = ROTARY ∨ s.P1IFG = ROTARY_END) ∧ s.OFFHOOK ≠ 1) := by
      rw [hf, ho]; decide
    exact ⟨⟨fun hp => absurd h0 hp, fun hi => absurd hi hni⟩, fun hi => absurd hi hni,
      fun hn hid => absurd hid (hback h0 hn)⟩
  · have h0 : (Port_1 s).P1IFG = 0 := by rw [h]
    have hni : ¬ (s.P1IFG = CELL_UART_RXD ∨
        (s.P1IFG = ROTARY ∨ s.P1IFG = ROTARY_END) ∧ s.OFFHOOK ≠ 1) := by
      rw [hf, ho]; decide
    exact ⟨⟨fun hp => absurd h0 hp, fun hi => absurd hi hni⟩, fun hi => absurd hi hni,
      fun hn hid => absurd hid (hback h0 hn)⟩
  · have hn : (Port_1 s).P1IFG ≠ 0 := by
      rw [h]
      rcases hig with hr | ⟨hr | hr, _⟩ <;> rw [hr] <;> decide
    exact ⟨⟨fun _ => hig, fun _ => hn⟩, fun _ => h, fun _ _ => hig⟩
  · have h0 : (Port_1 s).P1IFG = 0 := by rw [h]
    have hni : ¬ (s.P1IFG = CELL_UART_RXD ∨
        (s.P1IFG = ROTARY ∨ s.P1IFG = ROTARY_END) ∧ s.OFFHOOK ≠ 1) := by
      rintro (hr | ⟨hr | hr, _⟩)
      · exact h2 hr
      · exact h3 hr
      · exact h4 hr
    exact ⟨⟨fun hp => absurd h0 hp, fun hi => absurd hi hni⟩, fun hi => absurd hi hni,
      fun hn hid => absurd hid (hback h0 hn)⟩

/-- Witness for C17: a rotary pulse arriving with the handset down is left pending and
nothing changes. -/
theorem pending_flag_left_iff_ignored_witness :
    ignoredPulse.P1IFG = ROTARY ∧ ignoredPulse.OFFHOOK = 0 ∧
    (Port_1 ignoredPulse).P1IFG ≠ 0 ∧ Port_1 ignoredPulse = ignoredPulse :=
  ⟨by decide, by decide,
    (pending_flag_left_iff_ignored ignoredPulse).1.mpr (Or.inr ⟨Or.inl (by decide), by decide⟩),
    (pending_flag_left_iff_ignored ignoredPulse).2.1
      (Or.inr ⟨Or.inl (by decide), by decide⟩)⟩

/-- C18: for every state with `P1IFG = ROTARY_END` and `OFFHOOK = 1` the inner test
`(P1IFG & ROTARY_END) != 0` is true and `Port_1` takes the append branch:
`P1IES` becomes `P1IES | ROTARY_END`, `P1IFG` becomes 0, `TACTL` becomes
`TACTL & (MC_1 + TACLR)`, and `CURR_DIGIT` and `OFFHOOK` are unchanged. -/
theorem rest_edge_takes_append_branch (s : State) (hifg : s.P1IFG = ROTARY_END)
    (hoff : s.OFFHOOK = 1) :
    s.P1IFG &&& ROTARY_END ≠ 0 ∧
    (Port_1 s).P1IES = s.P1IES ||| ROTARY_END ∧ (Port_1 s).P1IFG = 0 ∧
    (Port_1 s).TACTL = s.TACTL &&& (MC_1 + TACLR) ∧
    (Port_1 s).CURR_DIGIT = s.CURR_DIGIT ∧ (Port_1 s).OFFHOOK = s.OFFHOOK := by
  have hin : s.P1IFG &&& ROTARY_END ≠ 0 := by rw [hifg]; decide
  rw [Port_1_rotaryEnd s hifg hoff]
  exact ⟨hin, rfl, rfl, rfl, rfl, rfl⟩

/-- Witness for C18: the rest edge handled off-hook with four pulses counted. -/
theorem rest_edge_takes_append_branch_witness :
    restAfterFour.P1IFG &&& ROTARY_END ≠ 0 ∧
    (Port_1 restAfterFour).P1IES = restAfterFour.P1IES ||| ROTARY_END ∧
    (Port_1 restAfterFour).P1IFG = 0 ∧
    (Port_1 restAfterFour).TACTL = restAfterFour.TACTL &&& (MC_1 + TACLR) ∧
    (Port_1 restAfterFour).CURR_DIGIT = restAfterFour.CURR_DIGIT ∧
    (Port_1 restAfterFour).OFFHOOK = restAfterFour.OFFHOOK :=
  rest_edge_takes_append_branch restAfterFour (by decide) (by decide)


/-! ## Pulse counting -/

/-- C5, as the code has it: for every state with `OFFHOOK = 1`, `P1IFG = ROTARY` and an `int`
count below `INT_MAX`, `Port_1` adds exactly 1 to `CURR_DIGIT`, clears the `ROTARY` flag and
leaves `OFFHOOK`, the number, `P1IES` and `TACTL` as they were; `k` consecutive pulses add
exactly `k` as long as `CURR_DIGIT + k` does not exceed `INT_MAX`. -/
theorem rotary_pulse_counts_one (s : State) (k : Nat) (hoff : s.OFFHOOK = 1)
    (hifg : s.P1IFG = ROTARY) (hlo : INT_MIN ≤ s.CURR_DIGIT) (hhi : s.CURR_DIGIT < INT_MAX)
    (hk : s.CURR_DIGIT + k ≤ INT_MAX) :
    (Port_1 s).CURR_DIGIT = s.CURR_DIGIT + 1 ∧
    (Port_1 s).P1IFG &&& ROTARY = 0 ∧
    (Port_1 s).OFFHOOK = s.OFFHOOK ∧
    (Port_1 s).CURR_PHONE = s.CURR_PHONE ∧
    (Port_1 s).P1IES = s.P1IES ∧
    (Port_1 s).TACTL = s.TACTL ∧
    (run s (pulses k)).CURR_DIGIT = s.CURR_DIGIT + k := by
  have hw : wrapInt (s.CURR_DIGIT + 1) = s.CURR_DIGIT + 1 :=
    wrapInt_of_range _ (by omega) (by omega)
  rw [Port_1_rotary s hifg hoff]
  refine ⟨hw, by simp, rfl, rfl, rfl, rfl, ?_⟩
  exact run_pulses_count k s hoff hlo hk

/-- Witness for C5: from a count of 2, one pulse gives 3 and six pulses give 8. -/
theorem rotary_pulse_counts_one_witness :
    pulsePending.CURR_DIGIT = 2 ∧ (Port_1 pulsePending).CURR_DIGIT = 2 + 1 ∧
    (Port_1 pulsePending).P1IFG &&& ROTARY = 0 ∧
    (Port_1 pulsePending).OFFHOOK = pulsePending.OFFHOOK ∧
    (Port_1 pulsePending).CURR_PHONE = pulsePending.CURR_PHONE ∧
    (Port_1 pulsePending).P1IES = pulsePending.P1IES ∧
    (Port_1 pulsePending).TACTL = pulsePending.TACTL ∧
    (run pulsePending (pulses 6)).CURR_DIGIT = pulsePending.CURR_DIGIT + (6 : Nat) :=
  ⟨by decide, rotary_pulse_counts_one pulsePending 6 (by decide) (by decide) (by decide)
    (by decide) (by decide)⟩

/-- C5 refuted as stated: off-hook with the count at `INT_MAX`, a rotary pulse leaves
`CURR_DIGIT` at `INT_MIN`, not at `INT_MAX + 1`. -/
theorem count_wraps_at_INT_MAX :
    countFull.OFFHOOK = 1 ∧ countFull.P1IFG = ROTARY ∧ countFull.CURR_DIGIT = INT_MAX ∧
    (Port_1 countFull).CURR_DIGIT = INT_MIN ∧
    (Port_1 countFull).CURR_DIGIT ≠ countFull.CURR_DIGIT + 1 := by
  decide

/-- C7, as the code has it: for every off-hook state, handling the rest edge and the
Timer A fire leaves `CURR_DIGIT` as it was, and the `k` pulses of the next digit are
counted on top of it, as long as the `int` count plus `k` does not exceed `INT_MAX`. -/
theorem digit_completion_keeps_count (s : State) (k : Nat) (hoff : s.OFFHOOK = 1)
    (hlo : INT_MIN ≤ s.CURR_DIGIT) (hk : s.CURR_DIGIT + k ≤ INT_MAX) :
    (run s digitDone).CURR_DIGIT = s.CURR_DIGIT ∧
    (run s (digitDone ++ pulses k)).CURR_DIGIT = s.CURR_DIGIT + k := by
  have hrun : run s digitDone =
      { s with TACTL := s.TACTL &&& (MC_1 + TACLR) &&& (MC_0 + TACLR),
               P1IES := s.P1IES ||| ROTARY_END, P1IFG := 0 } := by
    show step (step s (.port1 ROTARY_END)) .timerA = _
    rw [step_rotaryEnd s hoff]
    rfl
  refine ⟨by rw [hrun], ?_⟩
  rw [run_append, hrun, run_pulses_count]
  · exact hoff
  · exact hlo
  · exact hk

/-- Witness for C7: three pulses counted before the digit completes, three after, and eight
once five more pulses have arrived. -/
theorem digit_completion_keeps_count_witness :
    counted3.CURR_DIGIT = 3 ∧ (run counted3 digitDone).CURR_DIGIT = counted3.CURR_DIGIT ∧
    (run counted3 (digitDone ++ pulses 5)).CURR_DIGIT = counted3.CURR_DIGIT + (5 : Nat) :=
  ⟨by decide, digit_completion_keeps_count counted3 5 (by decide) (by decide) (by decide)⟩

/-- C7 refuted as stated: off-hook with three pulses counted, the count is still 3 (not 0)
after the rest edge and the Timer A fire. -/
theorem count_not_reset_after_digit :
    counted3.OFFHOOK = 1 ∧ (run counted3 digitDone).CURR_DIGIT = 3 ∧
    (run counted3 digitDone).CURR_DIGIT ≠ 0 := by
  decide


/-! ## The number and the command strings -/

/-- C1, evaluated on the code: for `1 ≤ n ≤ 10`, starting off-hook with a count of 0 and the
number null, after `n` pulses the rest edge calls `strcat` with the null pointer as
destination and the count `n` as source address, and the number is still the null pointer
after the rest edge and after the Timer A fire: no digit has been appended to it. -/
theorem rest_edge_appends_no_digit (n : Nat) (s : State) (hn1 : 1 ≤ n) (hn10 : n ≤ 10)
    (hoff : s.OFFHOOK = 1) (hdig : s.CURR_DIGIT = 0) (hnum : s.CURR_PHONE = NULL) :
    appendCall (run s (pulses n)) (.port1 ROTARY_END) = some (NULL, n) ∧
    (run s (pulses n ++ [.port1 ROTARY_END])).CURR_PHONE = NULL ∧
    (run s (pulses n ++ digitDone)).CURR_PHONE = NULL := by
  obtain ⟨k, rfl⟩ : ∃ k, n = k + 1 := ⟨n - 1, by omega⟩
  have hlo : INT_MIN ≤ s.CURR_DIGIT := by rw [hdig]; decide
  have hhi : s.CURR_DIGIT + (k + 1 : Nat) ≤ INT_MAX := by
    rw [hdig]
    unfold INT_MAX
    omega
  have h4 : ROTARY_END ≠ 0 := by decide
  refine ⟨?_, run_null s _ hnum, run_null s _ hnum⟩
  have htc : toChar ((k : Int) + 1) = k + 1 := by
    have h := toChar_small (k + 1) (by omega)
    simpa using h
  rw [run_pulses k s hoff hlo hhi]
  simp [appendCall, Port_1_strcat, hoff, h4, hnum, hdig, htc]

/-- Witness for C1: seven pulses, then `strcat(NULL, 7)`, and the number is still null. -/
theorem rest_edge_appends_no_digit_witness :
    appendCall (run lifted (pulses 7)) (.port1 ROTARY_END) = some (NULL, 7) ∧
    (run lifted (pulses 7 ++ [.port1 ROTARY_END])).CURR_PHONE = NULL ∧
    (run lifted (pulses 7 ++ digitDone)).CURR_PHONE = NULL :=
  rest_edge_appends_no_digit 7 lifted (by decide) (by decide) (by decide) (by decide)
    (by decide)

/-- C2, evaluated on the code: run from the state `main` leaves (`OFFHOOK = 0`, a count of 0,
the number null), the scenario calls `strcat` at line 157 with the null pointer as
destination twice, passing the counts 3 and 8 as source addresses; at both Timer A fires the
inner `strcat` of line 180 has the null pointer as destination; the number is the null
pointer at the end; and the last hook interrupt takes the off-hook branch, where no command
is built. -/
theorem dial35_never_holds_35 :
    idle.OFFHOOK = 0 ∧ idle.CURR_DIGIT = 0 ∧ idle.CURR_PHONE = NULL ∧
    appendCalls idle dial35 = [(NULL, 3), (NULL, 8)] ∧
    fireDests idle dial35 = [NULL, NULL] ∧
    (run idle dial35).CURR_PHONE = NULL ∧
    Port_1_cmd { run idle dial35.dropLast with P1IFG := HOOK } = none := by
  decide

/-- C13, evaluated on the code: the on-hook branch of `Port_1` points `cmd` at the literal
`ATH;\r`; but in every state the handlers reach from the state `main` leaves, the number is
the null pointer, so the inner `strcat` of line 180 has the null pointer as destination. -/
theorem hangup_literal_and_null_dial_destination (s : State) (es : List Event)
    (hifg : s.P1IFG = HOOK) (hies : s.P1IES &&& HOOK = 0) :
    Port_1_cmd s = some (lit "ATH;\r") ∧ CCR0_ISR_dest (run idle es) = NULL := by
  have h1 : cstr (lit "ATH;\r\x00") = lit "ATH;\r" := by decide
  exact ⟨by simp [Port_1_cmd, hifg, hies, h1], run_null idle es (by decide)⟩

/-- Witness for C13: the hang-up literal, and the destination of a Timer A fire after hook
interrupts, pulses and digit completions. -/
theorem hangup_literal_and_null_dial_destination_witness :
    Port_1_cmd hangingUp = some (lit "ATH;\r") ∧ CCR0_ISR_dest (run idle busy) = NULL :=
  hangup_literal_and_null_dial_destination hangingUp busy (by decide) (by decide)

end PortORotary
